import Mathlib

/- Shallow embedding of segment_downloader.py, the Strava segment-leaderboard
scraper.  Pure data and pure functions mirror the Python source directly;
selenium interactions are modelled by explicit table data (lists of cell
strings) and, for the scrape loop, by an event trace. -/

/-- Sex categories, CATEGORIES_SEX in the source. -/
def CATEGORIES_SEX : List String := ["Men", "Women"]

/-- Age bands, CATEGORIES_AGE in the source. -/
def CATEGORIES_AGE : List String :=
  ["19 and under", "20 to 24", "25 to 34", "35 to 44", "45 to 54",
   "55 to 64", "65 to 69", "70 to 74", "75+"]

/-- Weight bands, CATEGORIES_WEIGHT in the source. -/
def CATEGORIES_WEIGHT : List String :=
  ["54 kg and under", "55 to 64 kg", "65 to 74 kg", "75 to 84 kg",
   "85 to 94 kg", "95 kg to 104 kg", "105 kg to 114 kg", "115 kg and over"]

/-- A leaderboard filter key, LeaderBoardFilterType in the source:
the triple (sex, age, weight), each component optional. -/
abbrev FilterKey := Option String × Option String × Option String

/-- One parsed row of the results table: the seven keys of the dictionaries
built by __read_table, in source order. -/
structure Entry where
  name : String
  date : String
  speed : String
  heartRate : Option String
  power : Option String
  vam : Option String
  time : String
  deriving DecidableEq

/-- Python slicing s[:-n]: drop the last n characters (empty result when the
string has at most n characters). -/
def pyDropRight (s : String) (n : Nat) : String :=
  ⟨s.data.take (s.data.length - n)⟩

/-- Python s.endswith(suffix). -/
def pyEndsWith (s suffix : String) : Bool :=
  suffix.data.isSuffixOf s.data

/-- Python s.replace(",", ""): remove every comma. -/
def removeCommas (s : String) : String :=
  ⟨s.data.filter (fun c => c != ',')⟩

/-- The speed-cell transformation in __read_table: text[:-5]. -/
def stripSpeed (s : String) : String := pyDropRight s 5

/-- The heart-rate-cell transformation in __read_table:
None for the "-" sentinel, otherwise text[:-4]. -/
def stripHeartRate (s : String) : Option String :=
  if s = "-" then none else some (pyDropRight s 4)

/-- The power-cell transformation in __read_table: text[:-14] when the cell
ends with the "Power Meter" marker, otherwise None. -/
def stripPower (s : String) : Option String :=
  if pyEndsWith s "Power Meter" then some (pyDropRight s 14) else none

/-- The VAM-cell transformation in __read_table: remove thousands separators. -/
def stripVam (s : String) : String := removeCommas s

/-- The currently displayed results table, as the two find_elements calls in
__read_table observe it: the header rows (thead) and the body rows (tbody),
each row being its list of cell texts (td/th 1, 2, ...). -/
structure RawTable where
  headRows : List (List String)
  bodyRows : List (List String)

/-- How __read_table can fail: an uncaught Python IndexError from indexing an
empty element list, or a SegmentDownloaderException wrapping a caught
WebDriverException (e.g. a missing td/th element). -/
inductive ReadErr where
  | indexError
  | downloaderError
  deriving DecidableEq

/-- row.find_element(By.XPATH, ".//td[k]").text for 1-based k: the cell text,
or none when the element is missing (NoSuchElementException). -/
def cell (row : List String) (k : Nat) : Option String :=
  row[k - 1]?

/-- The per-row body of the loop in __read_table: columns 2-6 always, then
column 7 as VAM (commas removed) and column 8 as time in the climbing layout,
or column 7 as time and no VAM in the flat layout.  A missing cell makes the
whole row fail (NoSuchElementException). -/
def readRow (isClimb : Bool) (row : List String) : Option Entry :=
  (cell row 2).bind fun name =>
  (cell row 3).bind fun date =>
  (cell row 4).bind fun speedRaw =>
  (cell row 5).bind fun c5 =>
  (cell row 6).bind fun c6 =>
  match isClimb with
  | true =>
    (cell row 7).bind fun vamRaw =>
    (cell row 8).bind fun t =>
    some ⟨name, date, stripSpeed speedRaw, stripHeartRate c5, stripPower c6,
          some (stripVam vamRaw), t⟩
  | false =>
    (cell row 7).bind fun t =>
    some ⟨name, date, stripSpeed speedRaw, stripHeartRate c5, stripPower c6,
          none, t⟩

/-- Read every body row with the chosen layout; the first failing row aborts. -/
def readRows (isClimb : Bool) : List (List String) → Option (List Entry)
  | [] => some []
  | r :: rs =>
    (readRow isClimb r).bind fun e =>
    (readRows isClimb rs).bind fun es =>
    some (e :: es)

/-- Lift the row-reading result into __read_table's error discipline: a missing
element is a WebDriverException, caught and wrapped. -/
def rowsToResult (o : Option (List Entry)) : Except ReadErr (List Entry) :=
  match o with
  | none => Except.error ReadErr.downloaderError
  | some es => Except.ok es

/-- SegmentDownloader.__read_table.  rows[0] and heads[0] are Python list
indexing: on an empty list they raise IndexError, which the except clause
(catching only WebDriverException) does not intercept. -/
def readTable (t : RawTable) : Except ReadErr (List Entry) :=
  match t.bodyRows with
  | [] => Except.error ReadErr.indexError
  | r0 :: _ =>
    match cell r0 1 with
    | none => Except.error ReadErr.downloaderError
    | some firstCell =>
      if firstCell = "No results found" then Except.ok []
      else
        match t.headRows with
        | [] => Except.error ReadErr.indexError
        | h0 :: _ =>
          match cell h0 7 with
          | none => Except.error ReadErr.downloaderError
          | some h7 =>
            rowsToResult (readRows (h7 == "VAM") t.bodyRows)

/-- The ordered list of the 35 phase filters scrape_leaderboard runs through:
the unfiltered baseline, then sex-major age phases, then sex-major weight
phases, exactly as the nested loops in the source enumerate them. -/
def phaseList : List FilterKey :=
  (none, none, none)
    :: ((CATEGORIES_SEX.flatMap fun s => CATEGORIES_AGE.map fun a =>
          ((some s, some a, none) : FilterKey))
      ++ (CATEGORIES_SEX.flatMap fun s => CATEGORIES_WEIGHT.map fun w =>
          ((some s, none, some w) : FilterKey)))

/-- The filter of the phase with 0-based index i, as a pure function of i. -/
def phaseFilter (i : Nat) : FilterKey :=
  phaseList.getD i (none, none, none)

/-- The phases paired with their 1-based phase counters, mirroring
phase_counter in scrape_leaderboard which starts at 1. -/
def phasesEnum : List (Nat × FilterKey) :=
  (List.range phaseList.length).map fun i => (i + 1, phaseFilter i)

/-- The mutable scraping state carried across phases: the accumulated
leaderboard_data, completed_phase and completed_page. -/
structure ScrapeSt where
  data : FilterKey → List Entry
  completedPhase : Nat
  completedPage : Nat

/-- Observable scraping actions, for stating which phases and pages a resumed
run touches: navigation to the segment page, the page jump performed by
__go_to_leaderboard_page (with its target page number), a filter application,
and the read of one results page of one phase. -/
inductive Ev where
  | navigate : Ev
  | jumpTo : Nat → Ev
  | applyFilter : FilterKey → Ev
  | readPage : FilterKey → Nat → Ev

/-- SegmentDownloader.__scrape_current_leaderboard for one phase, over an
abstract site mapping each filter to its list of result pages.  When
completed_phase < phase_counter the phase runs: navigate to the segment page,
jump to page completed_page + 1 when completed_page > 0 (the href rewrite in
__go_to_leaderboard_page inserts completed_page + 1 as the page parameter),
apply the phase's filter, then read and append the remaining pages until the
next-page link is missing; finally completed_phase is incremented and
completed_page reset to 0.  Otherwise the phase is skipped entirely. -/
def runPhase (site : FilterKey → List (List Entry)) (fk : FilterKey)
    (pc : Nat) (st : ScrapeSt) : ScrapeSt × List Ev :=
  if st.completedPhase < pc then
    let pages := site fk
    let start := st.completedPage
    let evs := Ev.navigate
      :: ((if 0 < st.completedPage then [Ev.jumpTo (st.completedPage + 1)] else [])
        ++ Ev.applyFilter fk
        :: (List.range (pages.length - start)).map fun j =>
             Ev.readPage fk (start + 1 + j))
    (⟨fun k => if k = fk then st.data k ++ (pages.drop start).flatten else st.data k,
      st.completedPhase + 1, 0⟩, evs)
  else (st, [])

/-- Run a list of (phase counter, filter) pairs in order, threading the state
and concatenating the event traces. -/
def runPhases (site : FilterKey → List (List Entry)) :
    List (Nat × FilterKey) → ScrapeSt → ScrapeSt × List Ev
  | [], st => (st, [])
  | p :: rest, st =>
    let r1 := runPhase site p.2 p.1 st
    let r2 := runPhases site rest r1.1
    (r2.1, r1.2 ++ r2.2)

/-- The phase loop of scrape_leaderboard: all 35 phases with counters 1..35. -/
def scrapeAll (site : FilterKey → List (List Entry)) (st : ScrapeSt) :
    ScrapeSt × List Ev :=
  runPhases site phasesEnum st

/-- A baseline entry after __add_attributes mutated it: the original seven
fields plus the Sex, Age group, Weight group and Position keys it adds. -/
structure FusedEntry where
  entry : Entry
  sex : Option String
  ageGroup : Option String
  weightGroup : Option String
  position : Option String
  deriving DecidableEq

/-- The per-entry body of __add_attributes, for the baseline entry at 0-based
index i.  The accumulator triple is (c_s, c_a, c_w).  Each break in the source
leaves only the inner band loop, so the outer fold over the sexes continues:
a sex whose band list contains no match leaves the accumulator unchanged. -/
def fuseEntry (data : FilterKey → List Entry) (i : Nat) (e : Entry) : FusedEntry :=
  let r1 := CATEGORIES_SEX.foldl (fun acc s =>
    match CATEGORIES_AGE.find? (fun a => decide (e ∈ data (some s, some a, none))) with
    | some a => (some s, some a, acc.2.2)
    | none => acc)
    ((none, none, none) : Option String × Option String × Option String)
  let r2 := CATEGORIES_SEX.foldl (fun acc s =>
    match CATEGORIES_WEIGHT.find? (fun w => decide (e ∈ data (some s, none, some w))) with
    | some w => (some s, acc.2.1, some w)
    | none => acc) r1
  ⟨e, r2.1, r2.2.1, r2.2.2, some (toString (i + 1))⟩

/-- The enumerate loop of __add_attributes, carrying the running index. -/
def addAttributesGo (data : FilterKey → List Entry) :
    Nat → List Entry → List FusedEntry
  | _, [] => []
  | i, e :: rest => fuseEntry data i e :: addAttributesGo data (i + 1) rest

/-- SegmentDownloader.__add_attributes: annotate every baseline entry. -/
def addAttributes (data : FilterKey → List Entry) : List FusedEntry :=
  addAttributesGo data 0 (data (none, none, none))

/-- The entry occurs in at least one (sex, age band) filtered sequence. -/
def occursInAge (data : FilterKey → List Entry) (e : Entry) : Prop :=
  ∃ s ∈ CATEGORIES_SEX, ∃ a ∈ CATEGORIES_AGE, e ∈ data (some s, some a, none)

/-- The entry occurs in at least one (sex, weight band) filtered sequence. -/
def occursInWeight (data : FilterKey → List Entry) (e : Entry) : Prop :=
  ∃ s ∈ CATEGORIES_SEX, ∃ w ∈ CATEGORIES_WEIGHT, e ∈ data (some s, none, some w)

/-- The CSV header, field_names in __write_to_csv. -/
def FIELD_NAMES : List String :=
  ["Position", "Name", "Date", "Speed", "Heart rate", "Power",
   "VAM", "Time", "Sex", "Age group", "Weight group"]

/-- The output file name built in __write_to_csv. -/
def csvFilename (segmentId : String) : String :=
  "leaderboard_" ++ segmentId ++ ".csv"

/-- One CSV data row: the entry's values in field_names order, with a None
value written as the empty string (csv.DictWriter's rendering of None). -/
def renderFused (f : FusedEntry) : List String :=
  [f.position.getD "", f.entry.name, f.entry.date, f.entry.speed,
   f.entry.heartRate.getD "", f.entry.power.getD "", f.entry.vam.getD "",
   f.entry.time, f.sex.getD "", f.ageGroup.getD "", f.weightGroup.getD ""]

/-- SegmentDownloader.__write_to_csv: the file name and the written rows,
header first, then one row per fused baseline entry in baseline order. -/
def writeToCsv (segmentId : String) (baseline : List FusedEntry) :
    String × List (List String) :=
  (csvFilename segmentId, FIELD_NAMES :: baseline.map renderFused)

/-- The live browser handle, opaque to the persisted state. -/
structure Driver where
  token : Nat
  deriving DecidableEq

/-- The full in-memory state of a SegmentDownloader object. -/
structure DownloaderState where
  segmentId : String
  completedPhase : Nat
  completedPage : Nat
  leaderboardData : FilterKey → List Entry
  driver : Driver

/-- What __getstate__ leaves after `del state["driver"]`: every attribute
except the driver. -/
structure PersistedState where
  segmentId : String
  completedPhase : Nat
  completedPage : Nat
  leaderboardData : FilterKey → List Entry

/-- SegmentDownloader.__getstate__. -/
def getstate (sd : DownloaderState) : PersistedState :=
  ⟨sd.segmentId, sd.completedPhase, sd.completedPage, sd.leaderboardData⟩

/-- SegmentDownloader.__setstate__: restore the attributes and recreate the
driver freshly via __create_driver. -/
def setstate (p : PersistedState) (freshDriver : Driver) : DownloaderState :=
  ⟨p.segmentId, p.completedPhase, p.completedPage, p.leaderboardData, freshDriver⟩

/-- save_state pickles the object, i.e. persists exactly __getstate__'s value. -/
def saveState (sd : DownloaderState) : PersistedState :=
  getstate sd

/-- load_state unpickles, i.e. rebuilds the object via __setstate__ with a
freshly created driver. -/
def loadState (p : PersistedState) (freshDriver : Driver) : DownloaderState :=
  setstate p freshDriver

/-- Spec-side description of the fusion assignment (the amended claim C2):
within each sex the first matching band is selected, and because the break in
the source leaves only the band loop, an assignment made under Women (the later
sex in the Men-then-Women enumeration) overwrites one made under Men; a weight
match overwrites the sex category chosen by the age scan; Position is the
string of one plus the baseline index. -/
def specFuseEntry (data : FilterKey → List Entry) (i : Nat) (e : Entry) : FusedEntry :=
  let ageSel : Option (String × String) :=
    match CATEGORIES_AGE.find? (fun a => decide (e ∈ data (some "Women", some a, none))) with
    | some a => some ("Women", a)
    | none =>
      match CATEGORIES_AGE.find? (fun a => decide (e ∈ data (some "Men", some a, none))) with
      | some a => some ("Men", a)
      | none => none
  let wSel : Option (String × String) :=
    match CATEGORIES_WEIGHT.find? (fun w => decide (e ∈ data (some "Women", none, some w))) with
    | some w => some ("Women", w)
    | none =>
      match CATEGORIES_WEIGHT.find? (fun w => decide (e ∈ data (some "Men", none, some w))) with
      | some w => some ("Men", w)
      | none => none
  let sexSel : Option String :=
    match wSel with
    | some p => some p.1
    | none => ageSel.map fun p => p.1
  ⟨e, sexSel, ageSel.map (fun p => p.2), wSel.map (fun p => p.2),
   some (toString (i + 1))⟩

set_option maxRecDepth 4000 in
lemma fuseEntry_eq_spec (data : FilterKey → List Entry) (i : Nat) (e : Entry) :
    fuseEntry data i e = specFuseEntry data i e := by
  unfold fuseEntry specFuseEntry
  simp only [CATEGORIES_SEX, List.foldl_cons, List.foldl_nil]
  cases hMA : CATEGORIES_AGE.find? (fun a => decide (e ∈ data (some "Men", some a, none))) <;>
  cases hWA : CATEGORIES_AGE.find? (fun a => decide (e ∈ data (some "Women", some a, none))) <;>
  cases hMW : CATEGORIES_WEIGHT.find? (fun w => decide (e ∈ data (some "Men", none, some w))) <;>
  cases hWW : CATEGORIES_WEIGHT.find? (fun w => decide (e ∈ data (some "Women", none, some w))) <;>
  rfl

lemma addAttributesGo_getElem (data : FilterKey → List Entry)
    (l : List Entry) (n i : Nat) :
    (addAttributesGo data n l)[i]? = (l[i]?).map (fuseEntry data (n + i)) := by
  induction l generalizing n i with
  | nil => simp [addAttributesGo]
  | cons e rest ih =>
    cases i with
    | zero => simp [addAttributesGo]
    | succ j =>
      have h2 : n + 1 + j = n + (j + 1) := by omega
      calc (addAttributesGo data n (e :: rest))[j + 1]?
          = (addAttributesGo data (n + 1) rest)[j]? := by
            simp [addAttributesGo]
        _ = (rest[j]?).map (fuseEntry data (n + 1 + j)) := ih (n + 1) j
        _ = ((e :: rest)[j + 1]?).map (fuseEntry data (n + (j + 1))) := by
            rw [h2, List.getElem?_cons_succ]

lemma fuse_ageGroup_isSome (data : FilterKey → List Entry) (i : Nat) (e : Entry) :
    (fuseEntry data i e).ageGroup.isSome ↔ occursInAge data e := by
  rw [fuseEntry_eq_spec]
  simp only [specFuseEntry, occursInAge, CATEGORIES_SEX]
  cases hW : CATEGORIES_AGE.find? (fun a => decide (e ∈ data (some "Women", some a, none))) with
  | some a0 =>
    simp only [Option.map_some', Option.isSome_some, true_iff]
    exact ⟨"Women", by simp, a0, List.mem_of_find?_eq_some hW,
           by have hp := List.find?_some hW; simpa using hp⟩
  | none =>
    cases hM : CATEGORIES_AGE.find? (fun a => decide (e ∈ data (some "Men", some a, none))) with
    | some a0 =>
      simp only [Option.map_some', Option.isSome_some, true_iff]
      exact ⟨"Men", by simp, a0, List.mem_of_find?_eq_some hM,
             by have hp := List.find?_some hM; simpa using hp⟩
    | none =>
      simp only [Option.map_none', Option.isSome_none, Bool.false_eq_true, false_iff]
      rintro ⟨s, hs, a, ha, hmem⟩
      have hs2 : s = "Men" ∨ s = "Women" := by simpa using hs
      rcases hs2 with rfl | rfl
      · exact absurd (decide_eq_true hmem) (by simpa using List.find?_eq_none.mp hM a ha)
      · exact absurd (decide_eq_true hmem) (by simpa using List.find?_eq_none.mp hW a ha)

lemma fuse_weightGroup_isSome (data : FilterKey → List Entry) (i : Nat) (e : Entry) :
    (fuseEntry data i e).weightGroup.isSome ↔ occursInWeight data e := by
  rw [fuseEntry_eq_spec]
  simp only [specFuseEntry, occursInWeight, CATEGORIES_SEX]
  cases hW : CATEGORIES_WEIGHT.find? (fun w => decide (e ∈ data (some "Women", none, some w))) with
  | some w0 =>
    simp only [Option.map_some', Option.isSome_some, true_iff]
    exact ⟨"Women", by simp, w0, List.mem_of_find?_eq_some hW,
           by have hp := List.find?_some hW; simpa using hp⟩
  | none =>
    cases hM : CATEGORIES_WEIGHT.find? (fun w => decide (e ∈ data (some "Men", none, some w))) with
    | some w0 =>
      simp only [Option.map_some', Option.isSome_some, true_iff]
      exact ⟨"Men", by simp, w0, List.mem_of_find?_eq_some hM,
             by have hp := List.find?_some hM; simpa using hp⟩
    | none =>
      simp only [Option.map_none', Option.isSome_none, Bool.false_eq_true, false_iff]
      rintro ⟨s, hs, w, hw, hmem⟩
      have hs2 : s = "Men" ∨ s = "Women" := by simpa using hs
      rcases hs2 with rfl | rfl
      · exact absurd (decide_eq_true hmem) (by simpa using List.find?_eq_none.mp hM w hw)
      · exact absurd (decide_eq_true hmem) (by simpa using List.find?_eq_none.mp hW w hw)

lemma mem_addAttributesGo (data : FilterKey → List Entry) (l : List Entry) :
    ∀ (n : Nat) (f : FusedEntry), f ∈ addAttributesGo data n l →
      ∃ m e, e ∈ l ∧ f = fuseEntry data m e := by
  induction l with
  | nil => intro n f hf; simp [addAttributesGo] at hf
  | cons e rest ih =>
    intro n f hf
    rcases List.mem_cons.mp hf with h | h
    · exact ⟨n, e, by simp, h⟩
    · obtain ⟨m, e2, hmem, heq⟩ := ih (n + 1) f h
      exact ⟨m, e2, by simp [hmem], heq⟩

lemma runPhase_skip (site : FilterKey → List (List Entry)) (fk : FilterKey)
    (pc : Nat) (st : ScrapeSt) (h : pc ≤ st.completedPhase) :
    runPhase site fk pc st = (st, []) := by
  simp [runPhase, Nat.not_lt.mpr h]

lemma runPhases_append (site : FilterKey → List (List Entry))
    (l1 l2 : List (Nat × FilterKey)) (st : ScrapeSt) :
    runPhases site (l1 ++ l2) st
      = ((runPhases site l2 (runPhases site l1 st).1).1,
         (runPhases site l1 st).2 ++ (runPhases site l2 (runPhases site l1 st).1).2) := by
  induction l1 generalizing st with
  | nil => simp [runPhases]
  | cons p rest ih => simp [runPhases, ih]

lemma runPhases_skip (site : FilterKey → List (List Entry))
    (l : List (Nat × FilterKey)) (st : ScrapeSt)
    (h : ∀ p ∈ l, p.1 ≤ st.completedPhase) :
    runPhases site l st = (st, []) := by
  induction l with
  | nil => rfl
  | cons p rest ih =>
    have h1 : runPhase site p.2 p.1 st = (st, []) :=
      runPhase_skip site p.2 p.1 st (h p (by simp))
    simp [runPhases, h1, ih fun q hq => h q (by simp [hq])]

lemma phasesEnum_take_le (k : Nat) : ∀ p ∈ phasesEnum.take k, p.1 ≤ k := by
  intro p hp
  rw [phasesEnum, ← List.map_take, List.take_range] at hp
  obtain ⟨i, hi, rfl⟩ := List.mem_map.mp hp
  have : i < min k phaseList.length := List.mem_range.mp hi
  omega

/-- A leaderboard entry used by the concrete fusion scenarios below. -/
def cexEntry : Entry := ⟨"Alice", "Jan 1, 2024", "32.4", none, none, none, "5:00"⟩

/-- A populated leaderboard_data in which the baseline entry occurs both in an
age-filtered sequence and in a weight-filtered sequence. -/
def cexDataC1 : FilterKey → List Entry := fun k =>
  if k = (none, none, none) then [cexEntry]
  else if k = (some "Men", some "19 and under", none) then [cexEntry]
  else if k = (some "Men", none, some "54 kg and under") then [cexEntry]
  else []

/-- A populated leaderboard_data in which the baseline entry occurs in age
sequences of both sexes: (Men, 19 and under) first, (Women, 20 to 24) later. -/
def cexDataC2 : FilterKey → List Entry := fun k =>
  if k = (none, none, none) then [cexEntry]
  else if k = (some "Men", some "19 and under", none) then [cexEntry]
  else if k = (some "Women", some "20 to 24", none) then [cexEntry]
  else []

/-- A populated leaderboard_data in which the baseline entry occurs in exactly
one age-filtered sequence and in no weight-filtered sequence. -/
def wDataC1 : FilterKey → List Entry := fun k =>
  if k = (none, none, none) then [cexEntry]
  else if k = (some "Men", some "25 to 34", none) then [cexEntry]
  else []

/-- C1 counterexample: a baseline entry that occurs both in an age-filtered
sequence and in a weight-filtered sequence ends fusion with BOTH its Age group
and its Weight group populated, so "exactly one of the two fields is
non-absent" fails for an entry that occurs in a filtered sequence. -/
theorem c1_counterexample :
    cexEntry ∈ cexDataC1 (some "Men", some "19 and under", none)
    ∧ cexEntry ∈ cexDataC1 (some "Men", none, some "54 kg and under")
    ∧ (addAttributes cexDataC1).map (fun f => (f.ageGroup, f.weightGroup))
        = [(some "19 and under", some "54 kg and under")] := by decide

/-- C1 (amended): after __add_attributes completes on a fully populated
leaderboard_data, a baseline entry's Age group is non-absent exactly when the
entry occurs in some age-filtered sequence and its Weight group is non-absent
exactly when it occurs in some weight-filtered sequence — so at least one (not
always exactly one) of the two is non-absent for an entry occurring in some
category-filtered sequence, and both are absent precisely for entries
occurring in no filtered sequence. -/
theorem c1_amended (data : FilterKey → List Entry) (f : FusedEntry)
    (hf : f ∈ addAttributes data) :
    (f.ageGroup.isSome ↔ occursInAge data f.entry)
    ∧ (f.weightGroup.isSome ↔ occursInWeight data f.entry)
    ∧ ((f.ageGroup = none ∧ f.weightGroup = none) ↔
        (¬ occursInAge data f.entry ∧ ¬ occursInWeight data f.entry)) := by
  obtain ⟨m, e, hmem, rfl⟩ := mem_addAttributesGo data _ 0 f hf
  have hent : (fuseEntry data m e).entry = e := rfl
  rw [hent]
  refine ⟨fuse_ageGroup_isSome data m e, fuse_weightGroup_isSome data m e, ?_⟩
  rw [← fuse_ageGroup_isSome data m e, ← fuse_weightGroup_isSome data m e]
  cases (fuseEntry data m e).ageGroup <;> cases (fuseEntry data m e).weightGroup <;> simp

/-- C1 witness: the amended claim evaluated on a leaderboard whose baseline
entry occurs in exactly one age-filtered sequence. -/
theorem c1_witness :
    (fuseEntry wDataC1 0 cexEntry) ∈ addAttributes wDataC1
    ∧ (((fuseEntry wDataC1 0 cexEntry).ageGroup.isSome
          ↔ occursInAge wDataC1 (fuseEntry wDataC1 0 cexEntry).entry)
      ∧ ((fuseEntry wDataC1 0 cexEntry).weightGroup.isSome
          ↔ occursInWeight wDataC1 (fuseEntry wDataC1 0 cexEntry).entry)
      ∧ (((fuseEntry wDataC1 0 cexEntry).ageGroup = none
            ∧ (fuseEntry wDataC1 0 cexEntry).weightGroup = none) ↔
          (¬ occursInAge wDataC1 (fuseEntry wDataC1 0 cexEntry).entry
            ∧ ¬ occursInWeight wDataC1 (fuseEntry wDataC1 0 cexEntry).entry))) :=
  ⟨by decide, c1_amended wDataC1 (fuseEntry wDataC1 0 cexEntry) (by decide)⟩

/-- C2 counterexample: the baseline entry occurs in the very first age-filtered
sequence of the enumeration, (Men, 19 and under), yet fusion assigns it
sexCategory Women and ageGroup "20 to 24" — the break in the source only exits
the inner band loop, so the Women-scan overwrites the Men-scan; the assignment
is not taken from the first matching sequence in Men-then-Women order. -/
theorem c2_counterexample :
    cexEntry ∈ cexDataC2 (some "Men", some "19 and under", none)
    ∧ (addAttributes cexDataC2).map (fun f => (f.sex, f.ageGroup))
        = [(some "Women", some "20 to 24")]
    ∧ ((some "Women", some "20 to 24") : Option String × Option String)
        ≠ (some "Men", some "19 and under") := by decide

/-- C2 (amended): fusion computes, for each sex scanned in Men-then-Women
order, the first matching band of that sex, and a later sex's assignment
overwrites an earlier one, so sexCategory and ageGroup come from the last sex
in enumeration order having any age match (taking the first matching age band
within that sex); likewise the last sex with a weight match fixes weightGroup
and overwrites sexCategory; Position is the string of 1 plus the baseline
index.  specFuseEntry spells out exactly this description, and every entry of
the __add_attributes output matches it at its baseline position. -/
theorem c2_amended (data : FilterKey → List Entry) (i : Nat) :
    (addAttributes data)[i]? = ((data (none, none, none))[i]?).map (specFuseEntry data i)
    ∧ (∀ e, (specFuseEntry data i e).entry = e)
    ∧ (∀ e, (specFuseEntry data i e).position = some (toString (i + 1))) := by
  refine ⟨?_, fun e => rfl, fun e => rfl⟩
  rw [addAttributes, addAttributesGo_getElem]
  cases h : (data (none, none, none))[i]? with
  | none => rfl
  | some e => simp [fuseEntry_eq_spec, Nat.zero_add]

/-- C3: in a resumed run with completed_phase = k, every phase with counter at
most k is skipped entirely (no navigation, no filter application, no table
read, state untouched), so the whole trace is that of the remaining phases;
the first executed phase, counter k + 1, when completed_page > 0, navigates
and then jumps to page completedPage + 1 — the first page not yet consumed,
never page 1 — and reads pages completedPage + 1, completedPage + 2, ...;
and any executed phase ends with completed_phase incremented by one and
completed_page reset to 0. -/
theorem c3_resume (site : FilterKey → List (List Entry)) (k p0 : Nat)
    (d0 : FilterKey → List Entry) (fk : FilterKey) (pc : Nat) (st : ScrapeSt)
    (hp0 : 0 < p0) (hst : st.completedPhase < pc) :
    runPhases site (phasesEnum.take k) ⟨d0, k, p0⟩ = (⟨d0, k, p0⟩, [])
    ∧ (scrapeAll site ⟨d0, k, p0⟩).2
        = (runPhases site (phasesEnum.drop k) ⟨d0, k, p0⟩).2
    ∧ (runPhase site fk (k + 1) ⟨d0, k, p0⟩).2
        = Ev.navigate :: Ev.jumpTo (p0 + 1) :: Ev.applyFilter fk
            :: ((List.range ((site fk).length - p0)).map fun j =>
                 Ev.readPage fk (p0 + 1 + j))
    ∧ (runPhase site fk pc st).1.completedPhase = st.completedPhase + 1
    ∧ (runPhase site fk pc st).1.completedPage = 0 := by
  have hskip : runPhases site (phasesEnum.take k) ⟨d0, k, p0⟩ = (⟨d0, k, p0⟩, []) :=
    runPhases_skip site _ _ (phasesEnum_take_le k)
  refine ⟨hskip, ?_, ?_, ?_, ?_⟩
  · conv_lhs => rw [scrapeAll, ← List.take_append_drop k phasesEnum]
    rw [runPhases_append, hskip]
    simp
  · simp [runPhase, Nat.lt_succ_self, hp0]
  · simp [runPhase, hst]
  · simp [runPhase, hst]

/-- C3 witness: the resume properties evaluated on a three-page site with
completed_phase = 1 and completed_page = 2. -/
theorem c3_resume_witness :
    0 < 2 ∧ (1 : Nat) < 3
    ∧ (runPhase (fun _ => [[], [], []]) (none, none, none) (1 + 1)
        ⟨fun _ => [], 1, 2⟩).2
      = Ev.navigate :: Ev.jumpTo (2 + 1) :: Ev.applyFilter (none, none, none)
          :: ((List.range ((([[], [], []] : List (List Entry))).length - 2)).map fun j =>
               Ev.readPage (none, none, none) (2 + 1 + j)) :=
  ⟨by decide, by decide,
   (c3_resume (fun _ => [[], [], []]) 1 2 (fun _ => []) (none, none, none) 3
     ⟨fun _ => [], 1, 2⟩ (by decide) (by decide)).2.2.1⟩

/-- C4 counterexample: the source removes a fixed number of trailing
characters, so the literal fixture "32.4km/h" yields "32." (not "32.4"), the
literal power fixture "210WPower Meter" yields "2" (not "210W"), and
re-applying the speed stripping to one of its outputs changes it again, so the
stripping is not idempotent on its outputs. -/
theorem c4_counterexample :
    stripSpeed "32.4km/h" ≠ "32.4"
    ∧ stripSpeed "32.4km/h" = "32."
    ∧ stripPower "210WPower Meter" ≠ some "210W"
    ∧ stripPower "210WPower Meter" = some "2"
    ∧ stripSpeed (stripSpeed "32.4 km/h") ≠ stripSpeed "32.4 km/h" := by decide

/-- C4 (amended): the strippings remove fixed character counts.  A speed cell
loses its last five characters ("32.4 km/h" yields "32.4", the space-free
"32.4km/h" yields "32."); a "-" heart-rate cell is absent and any other
heart-rate cell loses its last four characters; a power cell ending in the
"Power Meter" marker loses its last fourteen characters ("210WPower Meter"
yields "2", "210 W Power Meter" yields "210") and any other power cell is
absent; a VAM cell loses its thousands separators; and the stripping is not
idempotent on its outputs — a second application removes further characters. -/
theorem c4_amended :
    stripSpeed "32.4 km/h" = "32.4"
    ∧ stripSpeed "32.4km/h" = "32."
    ∧ stripHeartRate "-" = none
    ∧ stripHeartRate "160 bpm" = some "160"
    ∧ stripPower "210 W Power Meter" = some "210"
    ∧ stripPower "210WPower Meter" = some "2"
    ∧ stripPower "210 W" = none
    ∧ stripVam "1,234" = "1234"
    ∧ stripSpeed (stripSpeed "32.4 km/h") ≠ stripSpeed "32.4 km/h" := by decide

/-- C5: the scrape executes exactly 35 phases — the unfiltered baseline, then
2 sexes times 9 age bands, then 2 sexes times 8 weight bands, in that fixed
order — and the filter of each phase is the pure function phaseFilter of the
phase index alone, which the explicit index formula below makes plain. -/
theorem c5_phases (i : Nat) (hi : i < 35) :
    phaseList.length = 35
    ∧ phasesEnum[i]? = some (i + 1, phaseFilter i)
    ∧ phaseFilter i =
        (if i = 0 then (none, none, none)
         else if i < 19 then
           (some (CATEGORIES_SEX.getD ((i - 1) / 9) ""),
            some (CATEGORIES_AGE.getD ((i - 1) % 9) ""), none)
         else
           (some (CATEGORIES_SEX.getD ((i - 19) / 8) ""), none,
            some (CATEGORIES_WEIGHT.getD ((i - 19) % 8) ""))) := by
  interval_cases i <;> exact ⟨rfl, rfl, rfl⟩

/-- C5 witness: the phase table evaluated at index 20 (the second weight
phase, Men, 55 to 64 kg). -/
theorem c5_phases_witness :
    (20 : Nat) < 35
    ∧ (phaseList.length = 35
      ∧ phasesEnum[20]? = some (20 + 1, phaseFilter 20)
      ∧ phaseFilter 20 =
          (if (20 : Nat) = 0 then (none, none, none)
           else if (20 : Nat) < 19 then
             (some (CATEGORIES_SEX.getD ((20 - 1) / 9) ""),
              some (CATEGORIES_AGE.getD ((20 - 1) % 9) ""), none)
           else
             (some (CATEGORIES_SEX.getD ((20 - 19) / 8) ""), none,
              some (CATEGORIES_WEIGHT.getD ((20 - 19) % 8) "")))) :=
  ⟨by decide, c5_phases 20 (by decide)⟩

/-- Header row of a flat-layout results table: the 7th header is not "VAM". -/
def flatHeaders : List String :=
  ["Rank", "Name", "Date", "Speed", "Heart rate", "Power", "Time"]

/-- Header row of a climbing-layout results table: the 7th header is "VAM". -/
def climbHeaders : List String :=
  ["Rank", "Name", "Date", "Speed", "Heart rate", "Power", "VAM", "Time"]

/-- A flat-layout data row. -/
def flatRow : List String :=
  ["1", "Alice", "Jan 1, 2024", "32.4 km/h", "160 bpm", "210 W Power Meter", "5:00"]

/-- The same data row in the climbing layout: identical fields with the VAM
column "1,234" inserted at position 7. -/
def climbRow : List String :=
  ["1", "Alice", "Jan 1, 2024", "32.4 km/h", "160 bpm", "210 W Power Meter",
   "1,234", "5:00"]

/-- The flat-layout fixture table. -/
def flatFixture : RawTable := ⟨[flatHeaders], [flatRow]⟩

/-- The climbing-layout fixture table, identical except for the layout. -/
def climbFixture : RawTable := ⟨[climbHeaders], [climbRow]⟩

/-- The entry the climbing fixture parses to: VAM populated, commas removed. -/
def climbEntry : Entry :=
  ⟨"Alice", "Jan 1, 2024", "32.4", some "160", some "210", some "1234", "5:00"⟩

/-- The entry the flat fixture parses to: the same fields except VAM absent. -/
def flatEntry : Entry := { climbEntry with vam := none }

/-- C6: for a non-empty results table (first cell not the no-results
sentinel), __read_table parses the body rows with the climbing layout exactly
when the 7th header cell equals "VAM"; under the climbing layout every parsed
row takes its VAM from column 7 with thousands separators removed and its time
from column 8, under the flat layout VAM is absent and time comes from column
7; and on two fixture tables identical except for the layout, VAM is populated
only in the climbing one. -/
theorem c6_layout (t : RawTable) (r0 : List String) (rest : List (List String))
    (firstCell : String) (h0 : List String) (hrest : List (List String)) (h7 : String)
    (hb : t.bodyRows = r0 :: rest)
    (hc : cell r0 1 = some firstCell)
    (hs : firstCell ≠ "No results found")
    (hh : t.headRows = h0 :: hrest)
    (h7h : cell h0 7 = some h7) :
    readTable t = rowsToResult (readRows (h7 == "VAM") (r0 :: rest))
    ∧ (∀ row e, readRow true row = some e →
        e.vam = (cell row 7).map stripVam ∧ cell row 8 = some e.time)
    ∧ (∀ row e, readRow false row = some e →
        e.vam = none ∧ cell row 7 = some e.time)
    ∧ readTable climbFixture = Except.ok [climbEntry]
    ∧ readTable flatFixture = Except.ok [flatEntry]
    ∧ flatEntry = { climbEntry with vam := none }
    ∧ climbEntry.vam = some (stripVam "1,234") := by
  obtain ⟨hr, br⟩ := t
  simp only at hb hh
  subst hb hh
  refine ⟨by simp [readTable, hc, hs, h7h], ?_, ?_, rfl, rfl, rfl, by decide⟩
  · intro row e h
    simp only [readRow, Option.bind_eq_some] at h
    obtain ⟨name, h2, date, h3, sp, h4, c5, h5, c6, h6, vamRaw, h7a, t, h8, he⟩ := h
    obtain ⟨⟩ := Option.some.injEq _ _ ▸ he
    simp_all [cell]
  · intro row e h
    simp only [readRow, Option.bind_eq_some] at h
    obtain ⟨name, h2, date, h3, sp, h4, c5, h5, c6, h6, t, h7a, he⟩ := h
    obtain ⟨⟩ := Option.some.injEq _ _ ▸ he
    simp_all [cell]

/-- C6 witness: the layout theorem applied to the climbing fixture. -/
theorem c6_layout_witness :
    cell climbRow 1 = some "1"
    ∧ ("1" : String) ≠ "No results found"
    ∧ cell climbHeaders 7 = some "VAM"
    ∧ readTable climbFixture
        = rowsToResult (readRows (("VAM" : String) == "VAM") [climbRow]) :=
  ⟨rfl, by decide, rfl,
   (c6_layout climbFixture climbRow [] "1" climbHeaders [] "VAM"
     rfl rfl (by decide) rfl rfl).1⟩

/-- C7: whenever the first data row's first cell reads the no-results
sentinel, __read_table returns the empty sequence and no error. -/
theorem c7_no_results (t : RawTable) (r0 : List String) (rest : List (List String))
    (hb : t.bodyRows = r0 :: rest)
    (h1 : cell r0 1 = some "No results found") :
    readTable t = Except.ok [] := by
  obtain ⟨hr, br⟩ := t
  simp only at hb
  subst hb
  simp [readTable, h1]

/-- A table whose single body row carries the no-results sentinel. -/
def noResultsTable : RawTable := ⟨[], [["No results found"]]⟩

/-- C7 witness: the sentinel fixture parses to the empty sequence. -/
theorem c7_no_results_witness :
    cell ["No results found"] 1 = some "No results found"
    ∧ readTable noResultsTable = Except.ok [] :=
  ⟨rfl, c7_no_results noResultsTable ["No results found"] [] rfl rfl⟩

/-- C8: saving a SegmentDownloader state and loading it back reproduces
segmentId, completedPhase, completedPage and leaderboardData identically,
installs the freshly created driver, and the persisted form is a function of
exactly those four fields — the driver is excluded from it. -/
theorem c8_roundtrip (sd : DownloaderState) (fresh : Driver) :
    (loadState (saveState sd) fresh).segmentId = sd.segmentId
    ∧ (loadState (saveState sd) fresh).completedPhase = sd.completedPhase
    ∧ (loadState (saveState sd) fresh).completedPage = sd.completedPage
    ∧ (loadState (saveState sd) fresh).leaderboardData = sd.leaderboardData
    ∧ (loadState (saveState sd) fresh).driver = fresh
    ∧ (∀ sd1 sd2 : DownloaderState, getstate sd1 = getstate sd2 ↔
        (sd1.segmentId = sd2.segmentId ∧ sd1.completedPhase = sd2.completedPhase
          ∧ sd1.completedPage = sd2.completedPage
          ∧ sd1.leaderboardData = sd2.leaderboardData)) := by
  refine ⟨rfl, rfl, rfl, rfl, rfl, fun sd1 sd2 => ?_⟩
  simp [getstate, PersistedState.mk.injEq]

/-- C9: the export writes the file leaderboard_(segmentId).csv — a
deterministic function of the segment identifier — with the exact eleven-name
header first, then one row per fused baseline entry in baseline order, each
absent optional field rendered as the empty string. -/
theorem c9_export (segmentId : String) (baseline : List FusedEntry) :
    writeToCsv segmentId baseline
      = ("leaderboard_" ++ segmentId ++ ".csv",
         ["Position", "Name", "Date", "Speed", "Heart rate", "Power",
          "VAM", "Time", "Sex", "Age group", "Weight group"]
           :: baseline.map renderFused)
    ∧ (writeToCsv segmentId baseline).2.length = baseline.length + 1
    ∧ (∀ f : FusedEntry, renderFused f =
        [f.position.getD "", f.entry.name, f.entry.date, f.entry.speed,
         f.entry.heartRate.getD "", f.entry.power.getD "", f.entry.vam.getD "",
         f.entry.time, f.sex.getD "", f.ageGroup.getD "", f.weightGroup.getD ""]) :=
  ⟨rfl, by simp [writeToCsv], fun f => rfl⟩

/-- C10: on a table with zero body rows, __read_table fails with the uncaught
Python IndexError from rows[0] — distinct both from an empty-sequence result
and from the wrapped SegmentDownloaderException — whatever the headers are. -/
theorem c10_empty_rows (headRows : List (List String)) :
    readTable ⟨headRows, []⟩ = Except.error ReadErr.indexError
    ∧ (Except.error ReadErr.indexError : Except ReadErr (List Entry))
        ≠ Except.ok []
    ∧ (Except.error ReadErr.indexError : Except ReadErr (List Entry))
        ≠ Except.error ReadErr.downloaderError :=
  ⟨rfl, by simp, by simp⟩
